import Mathlib

/-!
Verification of the XenOrchestra template generator pipeline.

Shallow embedding of the template build pipeline of the
XenOrchestra-Template-Generator repository: the stale-template cleanup stage
(`_delete_old_templates` in `src/services/generator.py` and
`src/services/template.py`), the weighted progress accumulator
(`update_progress` / `process_template` in `src/services/generator.py`),
the raw disk upload (`XenOrchestraApi.import_disk` in
`src/services/xen_orchestra/api.py`), the cached image download
(`DebianImageProvider` in `src/services/image_providers/debian.py`),
the boot-order validator (`BootOrderParams` in
`src/services/xen_orchestra/models.py`) and the session context manager
(`AsyncAPISession` in `src/services/xen_orchestra/async_session.py`).

Python floats are modelled by exact rationals; the claims proved here do not
depend on rounding (the weights are added and compared with `min`, and the
terminal callback passes the literal 1.0).
-/

namespace XoTemplate

/-- Python substring test `pat in s`, character-wise: `subPrefix p l` holds
when `p` is a prefix of `l`. -/
def subPrefix : List Char → List Char → Bool
  | [], _ => true
  | _ :: _, [] => false
  | p :: ps, c :: cs => p = c && subPrefix ps cs

/-- Python substring test `pat in s`: `pat` occurs contiguously in the list. -/
def containsSub (pat : List Char) : List Char → Bool
  | [] => pat.isEmpty
  | c :: cs => subPrefix pat (c :: cs) || containsSub pat cs

/-- Python `pat in s` on strings: `s` contains `pat` as a substring. -/
def strContains (s pat : String) : Bool :=
  containsSub pat.data s.data

/-- Decimal digit value of a character, `none` for a non-digit. -/
def digitVal (c : Char) : Option Nat :=
  if '0' ≤ c ∧ c ≤ '9' then some (c.toNat - '0'.toNat) else none

/-- Accumulating decimal parse of a digit run; fails on any non-digit. -/
def parseNatAux : List Char → Nat → Option Nat
  | [], acc => some acc
  | c :: cs, acc =>
    match digitVal c with
    | some d => parseNatAux cs (acc * 10 + d)
    | none => none

/-- Python `int(s)` restricted to its behaviour on an optional sign followed
by decimal digits (the only shapes arising from template-label segments):
succeeds exactly on a nonempty all-digit run with optional leading sign,
raises `ValueError` (here `none`) otherwise. -/
def parseIntPy : List Char → Option Int
  | [] => none
  | c :: cs =>
    if c = '-' then
      if cs.isEmpty then none else (parseNatAux cs 0).map fun n => -(n : Int)
    else if c = '+' then
      if cs.isEmpty then none else (parseNatAux cs 0).map fun n => (n : Int)
    else (parseNatAux (c :: cs) 0).map fun n => (n : Int)

/-- Python `label.split(".")[-1]`: the trailing segment after the last dot
(the whole string when no dot occurs, the empty string after a trailing dot). -/
def lastSegment (cs : List Char) : List Char :=
  (cs.reverse.takeWhile fun c => c != '.').reverse

/-- Python `int(label.split(".")[-1])` from `_delete_old_templates`: the
trailing dot-separated segment of the label parsed as an integer, `none`
when parsing fails (the `except (ValueError, IndexError)` branch). -/
def parseBuildId (label : String) : Option Int :=
  parseIntPy (lastSegment label.data)

/-- One entry of the `matching_templates` list built by
`_delete_old_templates`: the dict `{"id": ..., "name": ..., "build_id": ...}`. -/
structure MatchedTemplate where
  id : String
  name : String
  build_id : Int
deriving DecidableEq, Repr

/-- The loop over `all_templates.items()` in `_delete_old_templates`: keep
every template whose `name_label` contains the pattern and whose trailing
segment parses as an integer build id.  The remote template dict is
modelled as an association list of (id, name_label) in iteration order. -/
def matchingTemplates (templates : List (String × String)) (pattern : String) :
    List MatchedTemplate :=
  templates.filterMap fun t =>
    if strContains t.2 pattern then
      match parseBuildId t.2 with
      | some b => some ⟨t.1, t.2, b⟩
      | none => none
    else none

/-- `matching_templates.sort(key=lambda x: x["build_id"], reverse=True)`:
stable sort by build id, descending. -/
def sortByBuildDesc (l : List MatchedTemplate) : List MatchedTemplate :=
  l.insertionSort fun a b => b.build_id ≤ a.build_id

/-- `TemplateGenerator._delete_old_templates` (src/services/generator.py),
up to the delete loop: the `templates_to_delete` list.  The match pattern is
`template.<name>.` (with trailing dot) and the exclusion filter compares each
candidate's id against `current_template_id` (the id of the template just
created). -/
def delete_old_templates_generator (templates : List (String × String))
    (template_name current_template_id : String) : List MatchedTemplate :=
  let pattern := "template." ++ template_name ++ "."
  let matching := sortByBuildDesc (matchingTemplates templates pattern)
  matching.filter fun t => t.id != current_template_id

/-- `TemplateManager._delete_old_templates` (src/services/template.py),
up to the delete loop: the `templates_to_delete` list.  The match pattern is
the base name `template.<name>` (no trailing dot) and the exclusion filter
compares each candidate's id against `self.template_name`, which is the
template NAME `template.<name>.<build_id>`, not an id. -/
def delete_old_templates_manager (templates : List (String × String))
    (template_base_name template_name : String) : List MatchedTemplate :=
  let matching := sortByBuildDesc (matchingTemplates templates template_base_name)
  matching.filter fun t => t.id != template_name

/-- The best-effort delete loop at the end of `_delete_old_templates`:
`delete_template` is attempted on every candidate in order; a failing delete
is logged and skipped (`except ... continue`).  `deleteOk` gives the outcome
of each remote delete call; the result is the list of ids actually deleted. -/
def run_cleanup_deletes (toDelete : List MatchedTemplate) (deleteOk : String → Bool) :
    List String :=
  toDelete.filterMap fun t => if deleteOk t.id then some t.id else none

/-- Membership in the sorted candidate list is membership in the unsorted one:
the stable sort only permutes. -/
theorem mem_sortByBuildDesc {t : MatchedTemplate} {l : List MatchedTemplate} :
    t ∈ sortByBuildDesc l ↔ t ∈ l := by
  unfold sortByBuildDesc
  exact (List.perm_insertionSort _ l).mem_iff

/-- A template entry whose label contains the pattern and whose trailing
segment parses lands in `matching_templates`. -/
theorem mem_matchingTemplates {templates : List (String × String)}
    {pattern tid label : String} {b : Int}
    (hmem : (tid, label) ∈ templates)
    (hmatch : strContains label pattern = true)
    (hparse : parseBuildId label = some b) :
    (⟨tid, label, b⟩ : MatchedTemplate) ∈ matchingTemplates templates pattern := by
  unfold matchingTemplates
  refine List.mem_filterMap.mpr ⟨(tid, label), hmem, ?_⟩
  simp [hmatch, hparse]

/-- In the generator variant, the exclusion filter keeps every matching
candidate whose id differs from the current template's id. -/
theorem mem_delete_old_templates_generator {templates : List (String × String)}
    {name currId tid label : String} {b : Int}
    (hmem : (tid, label) ∈ templates)
    (hmatch : strContains label ("template." ++ name ++ ".") = true)
    (hparse : parseBuildId label = some b)
    (hne : tid ≠ currId) :
    (⟨tid, label, b⟩ : MatchedTemplate) ∈ delete_old_templates_generator templates name currId := by
  unfold delete_old_templates_generator
  refine List.mem_filter.mpr ⟨mem_sortByBuildDesc.mpr (mem_matchingTemplates hmem hmatch hparse), ?_⟩
  simpa using hne

end XoTemplate

namespace XoTemplate

/-- C1: in `TemplateManager._delete_old_templates` (src/services/template.py)
the exclusion filter compares each candidate's remote id against
`self.template_name` (a name label, not an id), so the template just created
in the current run — remote id `vm-123`, label `template.foo.200` — is NOT
excluded: it is the sole deletion candidate and its delete call is issued.
This contradicts the claim (and the generator.py variant, which excludes by
id and never deletes the current template). -/
theorem c1_manager_cleanup_deletes_just_created_template :
    delete_old_templates_manager [("vm-123", "template.foo.200")]
      "template.foo" "template.foo.200"
      = [⟨"vm-123", "template.foo.200", 200⟩]
    ∧ run_cleanup_deletes
        (delete_old_templates_manager [("vm-123", "template.foo.200")]
          "template.foo" "template.foo.200")
        (fun _ => true)
      = ["vm-123"] := by decide

/-- The generator variant of the cleanup never lists the current template's id
as a deletion candidate, for any set of remote templates. -/
theorem generator_cleanup_excludes_current (templates : List (String × String))
    (name currId : String) :
    currId ∉ (delete_old_templates_generator templates name currId).map MatchedTemplate.id := by
  intro hmem
  obtain ⟨t, ht, hid⟩ := List.mem_map.mp hmem
  have hkeep := (List.mem_filter.mp ht).2
  simp only [bne_iff_ne, ne_eq, decide_eq_true_eq] at hkeep
  exact hkeep (hid.trans rfl)

/-- C2: on a successful run, the generator cleanup invokes `delete_template`
on every remote template whose label contains the family pattern
`template.<name>.`, whose trailing segment parses as an integer build id, and
whose id is not the one just created; when every remote delete succeeds, each
such stale id is in the list of deleted ids. -/
theorem c2_cleanup_deletes_every_stale_family_member
    (templates : List (String × String)) (name currId : String)
    (deleteOk : String → Bool) (hok : ∀ i, deleteOk i = true)
    (tid label : String) (b : Int)
    (hmem : (tid, label) ∈ templates)
    (hmatch : strContains label ("template." ++ name ++ ".") = true)
    (hparse : parseBuildId label = some b)
    (hne : tid ≠ currId) :
    tid ∈ run_cleanup_deletes (delete_old_templates_generator templates name currId) deleteOk := by
  unfold run_cleanup_deletes
  refine List.mem_filterMap.mpr ⟨⟨tid, label, b⟩,
    mem_delete_old_templates_generator hmem hmatch hparse hne, ?_⟩
  simp [hok tid]

/-- Witness for C2 at a concrete input: with one stale template
`template.foo.100` and current id `id-200`, the stale id is deleted. -/
theorem c2_witness :
    ("id-100", "template.foo.100") ∈
        [("id-100", "template.foo.100"), ("id-200", "template.foo.200")]
    ∧ strContains "template.foo.100" ("template." ++ "foo" ++ ".") = true
    ∧ parseBuildId "template.foo.100" = some 100
    ∧ "id-100" ∈ run_cleanup_deletes
        (delete_old_templates_generator
          [("id-100", "template.foo.100"), ("id-200", "template.foo.200")]
          "foo" "id-200")
        (fun _ => true) :=
  ⟨by decide, by decide, by decide,
    c2_cleanup_deletes_every_stale_family_member
      [("id-100", "template.foo.100"), ("id-200", "template.foo.200")]
      "foo" "id-200" (fun _ => true) (fun _ => rfl)
      "id-100" "template.foo.100" 100 (by decide) (by decide) (by decide) (by decide)⟩

/-- The HTTP response to the raw disk-upload POST issued by
`XenOrchestraApi.import_disk` (src/services/xen_orchestra/api.py). -/
structure HttpResponse where
  status : Nat
  body : String
deriving DecidableEq

/-- The data carried by the exception raised on a non-200 upload response:
the f-string message names the status code and the response text. -/
structure UploadError where
  status : Nat
  body : String
deriving DecidableEq

/-- An HTTP POST issued while importing a disk. -/
inductive PostEvent
  | post
deriving DecidableEq

/-- `XenOrchestraApi.import_disk`: opens the file and issues a single
`requests.post` (straight-line code, no retry loop); when the status code is
200 it returns `response.text` (the new disk id), otherwise it raises with
the status code and response body. -/
def import_disk (resp : HttpResponse) : List PostEvent × Except UploadError String :=
  ([.post],
    if resp.status = 200 then .ok resp.body
    else .error ⟨resp.status, resp.body⟩)

/-- The remote image source as seen by `DebianImageProvider.__download`
(src/services/image_providers/debian.py): whether `raise_for_status` passes,
the chunk sizes yielded by `iter_content`, and the `content-length` header. -/
structure RemoteSource where
  ok : Bool
  chunks : List Nat
  totalSize : Nat

/-- An external effect of `download_image`: the HTTP GET of the remote image
or the `qemu-img convert` subprocess. -/
inductive FetchEvent
  | httpGet
  | qemuConvert
deriving DecidableEq

/-- The cumulative download progress values `downloaded_size / total_size`
reported after each chunk is written. -/
def cumReports (chunks : List Nat) (total : Nat) : List ℚ :=
  ((chunks.scanl (· + ·) (0 : Nat)).tail).map fun d => (d : ℚ) / (total : ℚ)

/-- `DebianImageProvider.__download`: reports 0.0, then returns the cached
qcow2 file when `use_cache` is set and the path exists; otherwise GETs the
image (failing when the response status is unsuccessful), reports cumulative
progress per chunk and a final 1.0.  The local filesystem is the list of
existing paths; the result is (progress reports, effects, outcome). -/
def dl_download (fs : List String) (path : String) (use_cache : Bool)
    (remote : RemoteSource) : List ℚ × List FetchEvent × Except String String :=
  if use_cache && fs.contains path then
    ([0, 1], [], .ok path)
  else if remote.ok then
    (0 :: (cumReports remote.chunks remote.totalSize ++ [1]), [.httpGet], .ok path)
  else
    ([0], [.httpGet], .error "download failed")

/-- `DebianImageProvider.__convert_image`: returns the cached vmdk when
`use_cache` is set and it exists, otherwise runs `qemu-img convert`, failing
when the subprocess exits non-zero (`check=True`). -/
def dl_convert_image (fs : List String) (vmdk_path : String) (use_cache : Bool)
    (convert_ok : Bool) : List FetchEvent × Except String String :=
  if use_cache && fs.contains vmdk_path then
    ([], .ok vmdk_path)
  else if convert_ok then
    ([.qemuConvert], .ok vmdk_path)
  else
    ([.qemuConvert], .error "conversion failed")

/-- `DebianImageProvider.__get_image_name`:
the string `debian-{version}-{variant}-{arch}.qcow2`. -/
def debianImageName (version variant arch : String) : String :=
  "debian-" ++ version ++ "-" ++ variant ++ "-" ++ arch ++ ".qcow2"

/-- `pathlib.Path.with_suffix`: replace the extension after the last dot of
the path, appending when there is none. -/
def withSuffix (s suffix : String) : String :=
  if s.data.contains '.' then
    ⟨((s.data.reverse.dropWhile fun c => c != '.').tail).reverse ++ suffix.data⟩
  else s ++ suffix

/-- `DebianImageProvider.download_image`: computes the qcow2 cache path in
the provider image directory, runs `__download` on it, then
`__convert_image` on the derived vmdk path; either failure propagates; on
success the vmdk path is returned. -/
def download_image (fs : List String) (use_cache : Bool) (remote : RemoteSource)
    (convert_ok : Bool) (outputDir version variant arch : String) :
    List ℚ × List FetchEvent × Except String String :=
  let qcow2Path := outputDir ++ "/" ++ debianImageName version variant arch
  let vmdkPath := withSuffix qcow2Path ".vmdk"
  match dl_download fs qcow2Path use_cache remote with
  | (reps, evs, .error e) => (reps, evs, .error e)
  | (reps, evs, .ok _) =>
    match dl_convert_image fs vmdkPath use_cache convert_ok with
    | (evs2, .error e) => (reps, evs ++ evs2, .error e)
    | (evs2, .ok p) => (reps, evs ++ evs2, .ok p)

/-- `BootOrderParams.validate_boot_order`
(src/services/xen_orchestra/models.py): accepts the string when every
character is in `set("cdn")`, returning it unchanged; raises `ValueError`
otherwise. -/
def validate_boot_order (v : String) : Except String String :=
  if v.data.all fun c => c == 'c' || c == 'd' || c == 'n' then .ok v
  else .error "Boot order can only contain c, d, or n characters"

/-- One transport operation attempted by `AsyncAPISession`
(src/services/xen_orchestra/async_session.py). -/
inductive SessEvent
  | connect
  | login
  | disconnect
deriving DecidableEq

/-- Outcomes of the underlying api calls during one session use: whether
`connect`, `login` and `disconnect` succeed when attempted. -/
structure SessionWorld where
  connectOk : Bool
  loginOk : Bool
  disconnectOk : Bool

/-- `AsyncAPISession.__aenter__`: connect, then login; on any failure the
`except` block attempts `disconnect` (whose own failure the bare
`except: pass` swallows) and re-raises the original error. -/
def aenter (w : SessionWorld) : List SessEvent × Except String Unit :=
  if w.connectOk then
    if w.loginOk then ([.connect, .login], .ok ())
    else ([.connect, .login, .disconnect], .error "login failed")
  else ([.connect, .disconnect], .error "connect failed")

/-- The `await self.api.disconnect()` call: fails when the transport
teardown raises. -/
def attempt_disconnect (w : SessionWorld) : Except String Unit :=
  if w.disconnectOk then .ok () else .error "disconnect failed"

/-- The `try ... except Exception as e: logger.error(...)` wrapper of
`__aexit__`: any error is caught and logged, never re-raised. -/
def swallow (r : Except String Unit) : Except String Unit :=
  match r with
  | .ok () => .ok ()
  | .error _ => .ok ()

/-- `AsyncAPISession.__aexit__`: always attempts `disconnect`; an exception
from `disconnect` is caught and logged. -/
def aexit (w : SessionWorld) : List SessEvent × Except String Unit :=
  ([.disconnect], swallow (attempt_disconnect w))

/-- One full `async with AsyncAPISession(api)` use with the given body
outcome: entry errors propagate; otherwise the body runs and `__aexit__`
follows — were `__aexit__` itself to raise, its error would replace the
body's outcome, so the final result equals the body outcome exactly because
`__aexit__` swallows disconnect failures. -/
def with_session (w : SessionWorld) (body : Except String String) :
    List SessEvent × Except String String :=
  match aenter w with
  | (evs, .error e) => (evs, .error e)
  | (evs, .ok _) =>
    match aexit w with
    | (evs2, .error e) => (evs ++ evs2, .error e)
    | (evs2, .ok _) => (evs ++ evs2, body)

/-- One call forwarded to the external progress callback during
`process_template` (src/services/generator.py): either a direct
`progress_callback(v)` (the literals 0.0 and 1.0) or a call of
`update_progress(step_name, step_progress)` recorded with the step's weight
`w = steps[step_name]` and the reported sub-progress `p`. -/
inductive ProgEvent
  | direct : ℚ → ProgEvent
  | step : ℚ → ℚ → ProgEvent

/-- The sequence of values forwarded to the external progress callback.
`update_progress` adds `steps[step_name] * step_progress` to
`current_progress`, clamps with `min(current_progress, 1.0)` and forwards the
clamped accumulator; a direct call forwards its literal argument and leaves
the accumulator untouched. -/
def runProgress : ℚ → List ProgEvent → List ℚ
  | _, [] => []
  | cur, .direct v :: rest => v :: runProgress cur rest
  | cur, .step w p :: rest =>
      min (cur + w * p) 1 :: runProgress (min (cur + w * p) 1) rest

/-- Final value of the `current_progress` accumulator after a list of events. -/
def finalAcc : ℚ → List ProgEvent → ℚ
  | cur, [] => cur
  | cur, .direct _ :: rest => finalAcc cur rest
  | cur, .step w p :: rest => finalAcc (min (cur + w * p) 1) rest

/-- Stage 1 (`prepare_image`, weight 0.25): one `update_progress` call per
sub-progress value the image preparation reports. -/
def stage1Events (ps1 : List ℚ) : List ProgEvent :=
  ps1.map (.step (25/100))

/-- Stage 2 (`get_resources`, weight 0.05): a single completion call. -/
def stage2Events : List ProgEvent :=
  [.step (5/100) 1]

/-- Stage 3 (`import_disk`, weight 0.40): one `update_progress` call per
sub-progress value reported while importing the disk. -/
def stage3Events (ps3 : List ℚ) : List ProgEvent :=
  ps3.map (.step (40/100))

/-- The sub-progress values `_import_disk` actually reports: the literal
calls `progress_callback(0.0)`, `progress_callback(0.5)`,
`progress_callback(1.0)` in src/services/generator.py. -/
def importDiskSubProgress : List ℚ :=
  [0, 1/2, 1]

/-- Stages 4-7 (`create_vm` 0.10, `configure_vm` 0.10, `convert_template`
0.05, `cleanup` 0.05): one completion call each. -/
def laterStageEvents : List ProgEvent :=
  [.step (10/100) 1, .step (10/100) 1, .step (5/100) 1, .step (5/100) 1]

/-- All `update_progress` calls of a successful run, in stage order. -/
def middleEvents (ps1 ps3 : List ℚ) : List ProgEvent :=
  stage1Events ps1 ++ stage2Events ++ stage3Events ps3 ++ laterStageEvents

/-- A successful `process_template` run: `progress_callback(0.0)` at the
start, the weighted stage updates, and `progress_callback(1.0)` at the end. -/
def pipelineEvents (ps1 ps3 : List ℚ) : List ProgEvent :=
  .direct 0 :: (middleEvents ps1 ps3 ++ [.direct 1])

/-- The values a successful run reports to its external progress callback. -/
def pipelineReports (ps1 ps3 : List ℚ) : List ℚ :=
  runProgress 0 (pipelineEvents ps1 ps3)

/-- Events of the stage updates: a weighted step with nonnegative weight and
nonnegative reported sub-progress. -/
def eventOk : ProgEvent → Prop
  | .direct _ => False
  | .step w p => 0 ≤ w ∧ 0 ≤ p

theorem runProgress_append (xs ys : List ProgEvent) :
    ∀ cur : ℚ, runProgress cur (xs ++ ys)
      = runProgress cur xs ++ runProgress (finalAcc cur xs) ys := by
  induction xs with
  | nil => intro cur; simp [runProgress, finalAcc]
  | cons e rest ih =>
    intro cur
    cases e with
    | direct v => simp [runProgress, finalAcc, ih]
    | step w p => simp [runProgress, finalAcc, ih]

theorem finalAcc_append (xs ys : List ProgEvent) :
    ∀ cur : ℚ, finalAcc cur (xs ++ ys) = finalAcc (finalAcc cur xs) ys := by
  induction xs with
  | nil => intro cur; simp [finalAcc]
  | cons e rest ih =>
    intro cur
    cases e with
    | direct v => simp [finalAcc, ih]
    | step w p => simp [finalAcc, ih]

/-- Over a run of weighted step events, the accumulator grows monotonically,
stays in `[0, 1]`, every forwarded value stays in `[0, 1]`, and the last
forwarded value is the final accumulator. -/
theorem runProgress_steps (es : List ProgEvent) :
    ∀ cur : ℚ, 0 ≤ cur → cur ≤ 1 → (∀ e ∈ es, eventOk e) →
    List.Chain' (· ≤ ·) (cur :: runProgress cur es)
    ∧ (cur :: runProgress cur es).getLast? = some (finalAcc cur es)
    ∧ 0 ≤ finalAcc cur es ∧ finalAcc cur es ≤ 1
    ∧ ∀ r ∈ runProgress cur es, 0 ≤ r ∧ r ≤ 1 := by
  induction es with
  | nil =>
    intro cur h0 h1 _
    simp [runProgress, finalAcc, h0, h1]
  | cons e rest ih =>
    intro cur h0 h1 hok
    cases e with
    | direct v =>
      exact absurd (hok _ (List.mem_cons_self _ _)) (by simp [eventOk])
    | step w p =>
      obtain ⟨hw, hp⟩ := hok _ (List.mem_cons_self _ _)
      have hgain : 0 ≤ w * p := mul_nonneg hw hp
      have h0' : 0 ≤ min (cur + w * p) 1 := le_min (add_nonneg h0 hgain) zero_le_one
      have h1' : min (cur + w * p) 1 ≤ 1 := min_le_right _ _
      have hcc : cur ≤ min (cur + w * p) 1 := le_min (le_add_of_nonneg_right hgain) h1
      obtain ⟨ch, hlast, hf0, hf1, hbounds⟩ :=
        ih (min (cur + w * p) 1) h0' h1' fun e he => hok e (List.mem_cons_of_mem _ he)
      refine ⟨?_, ?_, hf0, hf1, ?_⟩
      · rw [runProgress]
        exact List.chain'_cons.mpr ⟨hcc, ch⟩
      · rw [runProgress, finalAcc, List.getLast?_cons_cons]
        exact hlast
      · intro r hr
        rw [runProgress] at hr
        rcases List.mem_cons.mp hr with h | h
        · exact h ▸ ⟨h0', h1'⟩
        · exact hbounds r h

/-- Every event of the middle portion of a successful run is a weighted step
with nonnegative weight and sub-progress, given the stages report
nonnegative sub-progress. -/
theorem middleEvents_ok (ps1 ps3 : List ℚ)
    (h1 : ∀ p ∈ ps1, 0 ≤ p) (h3 : ∀ p ∈ ps3, 0 ≤ p) :
    ∀ e ∈ middleEvents ps1 ps3, eventOk e := by
  intro e he
  simp only [middleEvents, stage1Events, stage2Events, stage3Events, laterStageEvents,
    List.mem_append, List.mem_map, List.mem_cons, List.mem_singleton,
    List.not_mem_nil, or_false] at he
  rcases he with ((⟨p, hp, rfl⟩ | rfl) | ⟨p, hp, rfl⟩) | (rfl | rfl | rfl | rfl) <;>
    first
      | exact ⟨by norm_num, h1 _ hp⟩
      | exact ⟨by norm_num, h3 _ hp⟩
      | exact ⟨by norm_num, by norm_num⟩

/-- The reports of a successful run decompose as the initial literal 0, the
clamped stage updates, and the terminal literal 1. -/
theorem pipelineReports_eq (ps1 ps3 : List ℚ) :
    pipelineReports ps1 ps3
      = (0 :: runProgress 0 (middleEvents ps1 ps3)) ++ [1] := by
  rw [pipelineReports, pipelineEvents, runProgress, runProgress_append]
  simp [runProgress]

/-- C4: for every successful pipeline run whose stages report nonnegative
sub-progress, the sequence of values reported to the external progress
callback is non-decreasing and its final value is exactly 1. -/
theorem c4_progress_nondecreasing_ends_at_one (ps1 ps3 : List ℚ)
    (h1 : ∀ p ∈ ps1, 0 ≤ p) (h3 : ∀ p ∈ ps3, 0 ≤ p) :
    List.Chain' (· ≤ ·) (pipelineReports ps1 ps3)
    ∧ (pipelineReports ps1 ps3).getLast? = some 1 := by
  obtain ⟨ch, hlast, hf0, hf1, hbounds⟩ :=
    runProgress_steps (middleEvents ps1 ps3) 0 le_rfl zero_le_one
      (middleEvents_ok ps1 ps3 h1 h3)
  rw [pipelineReports_eq]
  constructor
  · refine List.Chain'.append ch (List.chain'_singleton 1) ?_
    intro x hx y hy
    rw [hlast, Option.mem_some_iff] at hx
    simp only [List.head?_cons, Option.mem_some_iff] at hy
    rw [← hx, ← hy] at *
    exact hf1
  · exact List.getLast?_concat _

/-- Witness for C4: the run with cached image (stage 1 reports the single
value 1.0) and the literal import-disk sub-progress values 0.0, 0.5, 1.0. -/
theorem c4_witness :
    (∀ p ∈ ([1] : List ℚ), 0 ≤ p) ∧ (∀ p ∈ importDiskSubProgress, 0 ≤ p)
    ∧ (List.Chain' (· ≤ ·) (pipelineReports [1] importDiskSubProgress)
        ∧ (pipelineReports [1] importDiskSubProgress).getLast? = some 1) :=
  ⟨by norm_num, by norm_num [importDiskSubProgress],
    c4_progress_nondecreasing_ends_at_one [1] importDiskSubProgress
      (by norm_num) (by norm_num [importDiskSubProgress])⟩

/-- C10: every value the pipeline forwards to its external progress callback
lies in the closed interval `[0, 1]`, for any nonnegative stage sub-progress
reports — including ones whose weighted sum exceeds the stage weight, which
the `min(current_progress, 1.0)` clamp absorbs. -/
theorem c10_progress_values_bounded (ps1 ps3 : List ℚ)
    (h1 : ∀ p ∈ ps1, 0 ≤ p) (h3 : ∀ p ∈ ps3, 0 ≤ p) :
    ∀ r ∈ pipelineReports ps1 ps3, 0 ≤ r ∧ r ≤ 1 := by
  obtain ⟨ch, hlast, hf0, hf1, hbounds⟩ :=
    runProgress_steps (middleEvents ps1 ps3) 0 le_rfl zero_le_one
      (middleEvents_ok ps1 ps3 h1 h3)
  intro r hr
  rw [pipelineReports_eq] at hr
  simp only [List.cons_append, List.mem_cons, List.mem_append,
    List.mem_singleton, List.not_mem_nil, or_false] at hr
  rcases hr with rfl | hr | rfl
  · exact ⟨le_rfl, zero_le_one⟩
  · exact hbounds r hr
  · exact ⟨zero_le_one, le_rfl⟩

/-- Witness for C10: over-reporting sub-progress (stage 1 reporting the
cumulative values 0.5, 1.0, whose weighted sum exceeds the stage weight)
still keeps every forwarded value within `[0, 1]`. -/
theorem c10_witness :
    (∀ p ∈ ([1/2, 1] : List ℚ), 0 ≤ p) ∧ (∀ p ∈ importDiskSubProgress, 0 ≤ p)
    ∧ ∀ r ∈ pipelineReports [1/2, 1] importDiskSubProgress, 0 ≤ r ∧ r ≤ 1 :=
  ⟨by norm_num, by norm_num [importDiskSubProgress],
    c10_progress_values_bounded [1/2, 1] importDiskSubProgress
      (by norm_num) (by norm_num [importDiskSubProgress])⟩

/-- C3: `update_progress` adds `weight * step_progress` on every call, but
stages 1 and 3 pass cumulative sub-progress values, so a stage's total
contribution is its weight times the SUM of its reported values, not its
weight times its final fraction.  With the import-disk stage's literal
reports 0.0, 0.5, 1.0, the accumulator rises from 0.30 to 0.90 across stage
3: a contribution of 0.60, not the stage weight 0.40 claimed for a stage
whose sub-progress ends at 1.0. -/
theorem c3_stage3_contribution_exceeds_weight :
    finalAcc 0 (stage1Events [1] ++ stage2Events) = 3/10
    ∧ finalAcc (finalAcc 0 (stage1Events [1] ++ stage2Events))
        (stage3Events importDiskSubProgress) = 9/10
    ∧ finalAcc (finalAcc 0 (stage1Events [1] ++ stage2Events))
          (stage3Events importDiskSubProgress)
        - finalAcc 0 (stage1Events [1] ++ stage2Events)
      ≠ (40/100) * 1 := by
  have ha : finalAcc 0 (stage1Events [1] ++ stage2Events) = 3/10 := by
    simp only [stage1Events, stage2Events, List.map, List.cons_append, List.nil_append,
      finalAcc]
    norm_num [min_def]
  have hb : finalAcc (3/10 : ℚ) (stage3Events importDiskSubProgress) = 9/10 := by
    simp only [stage3Events, importDiskSubProgress, List.map, finalAcc]
    norm_num [min_def]
  refine ⟨ha, ?_, ?_⟩
  · rw [ha, hb]
  · rw [ha, hb]
    norm_num

/-- C5: with remote templates `template.foo.100`, `template.foo.200`,
`template.foo.abc` and the just-created template being `template.foo.200`
(id `id-200`), the cleanup selects exactly the template behind
`template.foo.100` for deletion — `template.foo.abc` is skipped because its
trailing segment does not parse as an integer and `template.foo.200` is kept —
and the delete loop deletes exactly `id-100`. -/
theorem c5_cleanup_concrete_scenario :
    delete_old_templates_generator
      [("id-100", "template.foo.100"), ("id-200", "template.foo.200"),
       ("id-abc", "template.foo.abc")] "foo" "id-200"
      = [⟨"id-100", "template.foo.100", 100⟩]
    ∧ run_cleanup_deletes
        (delete_old_templates_generator
          [("id-100", "template.foo.100"), ("id-200", "template.foo.200"),
           ("id-abc", "template.foo.abc")] "foo" "id-200")
        (fun _ => true)
      = ["id-100"] := by decide

end XoTemplate

namespace XoTemplate

/-- C6: `import_disk` issues exactly one upload POST; it returns the
response body (the new disk id) exactly when the HTTP status is 200, and for
every other status it raises an error carrying both the status code and the
response body. -/
theorem c6_import_disk_status_handling (resp : HttpResponse) :
    (import_disk resp).1.length = 1
    ∧ (resp.status = 200 → (import_disk resp).2 = .ok resp.body)
    ∧ (resp.status ≠ 200 →
        (import_disk resp).2 = .error ⟨resp.status, resp.body⟩) := by
  refine ⟨rfl, ?_, ?_⟩ <;> intro h <;> simp [import_disk, h]

/-- Witness for C6: a 200 response returns its body, a 500 response raises
with status 500 and the body, and the upload is attempted once. -/
theorem c6_witness :
    (import_disk ⟨200, "disk-1"⟩).2 = .ok "disk-1"
    ∧ (import_disk ⟨500, "boom"⟩).2 = .error ⟨500, "boom"⟩
    ∧ (import_disk ⟨500, "boom"⟩).1.length = 1 :=
  ⟨(c6_import_disk_status_handling ⟨200, "disk-1"⟩).2.1 rfl,
    (c6_import_disk_status_handling ⟨500, "boom"⟩).2.2 (by decide),
    (c6_import_disk_status_handling ⟨500, "boom"⟩).1⟩

/-- C7 counterexample: the cache check is two-layered, one per produced
file, so a single existing file at the deterministic cache path does not
short-circuit the stage.  With only the vmdk (the path `download_image`
returns) cached, `__download` misses its qcow2 cache check and issues the
HTTP GET; with only the qcow2 cached, `__convert_image` runs the `qemu-img`
subprocess.  Either way an external effect occurs, refuting the claim that
one existing cache file suffices for no download and no conversion. -/
theorem c7_counterexample :
    FetchEvent.httpGet ∈
      (download_image ["im/debian-12-genericcloud-amd64.vmdk"]
        true ⟨true, [], 0⟩ true "im" "12" "genericcloud" "amd64").2.1
    ∧ FetchEvent.qemuConvert ∈
      (download_image ["im/debian-12-genericcloud-amd64.qcow2"]
        true ⟨true, [], 0⟩ true "im" "12" "genericcloud" "amd64").2.1 := by
  decide

/-- C7 (amended): when `use_cache` is set and both files produced by a previous run —
the qcow2 at its deterministic cache path and the vmdk derived from it —
exist, `download_image` performs no HTTP GET and no conversion subprocess,
reports progress 0.0 then 1.0 (complete), and returns the cached vmdk
path. -/
theorem c7_cache_short_circuit (fs : List String) (remote : RemoteSource)
    (convert_ok : Bool) (outputDir version variant arch : String)
    (hq : fs.contains (outputDir ++ "/" ++ debianImageName version variant arch) = true)
    (hv : fs.contains
        (withSuffix (outputDir ++ "/" ++ debianImageName version variant arch) ".vmdk")
      = true) :
    download_image fs true remote convert_ok outputDir version variant arch
      = ([0, 1], [],
          .ok (withSuffix (outputDir ++ "/" ++ debianImageName version variant arch)
            ".vmdk")) := by
  have hq2 : (outputDir ++ "/" ++ debianImageName version variant arch) ∈ fs := by
    simpa using hq
  have hv2 : withSuffix (outputDir ++ "/" ++ debianImageName version variant arch) ".vmdk" ∈ fs := by
    simpa using hv
  unfold download_image dl_download dl_convert_image
  simp [hq2, hv2]

/-- Witness for C7 at a concrete cached filesystem. -/
theorem c7_witness :
    ["im/debian-12-genericcloud-amd64.qcow2", "im/debian-12-genericcloud-amd64.vmdk"].contains
        ("im" ++ "/" ++ debianImageName "12" "genericcloud" "amd64") = true
    ∧ ["im/debian-12-genericcloud-amd64.qcow2", "im/debian-12-genericcloud-amd64.vmdk"].contains
        (withSuffix ("im" ++ "/" ++ debianImageName "12" "genericcloud" "amd64") ".vmdk") = true
    ∧ download_image
        ["im/debian-12-genericcloud-amd64.qcow2", "im/debian-12-genericcloud-amd64.vmdk"]
        true ⟨true, [], 0⟩ true "im" "12" "genericcloud" "amd64"
      = ([0, 1], [],
          .ok (withSuffix ("im" ++ "/" ++ debianImageName "12" "genericcloud" "amd64")
            ".vmdk")) :=
  ⟨by decide, by decide,
    c7_cache_short_circuit
      ["im/debian-12-genericcloud-amd64.qcow2", "im/debian-12-genericcloud-amd64.vmdk"]
      ⟨true, [], 0⟩ true "im" "12" "genericcloud" "amd64" (by decide) (by decide)⟩

/-- C8: the boot-order validator accepts a string (returning it unchanged)
if and only if every character belongs to the alphabet c, d, n; it accepts
"cd", "dn" and "cdn", and for any string containing a character outside the
alphabet it raises the validation error. -/
theorem c8_boot_order_validator :
    (∀ s : String, validate_boot_order s = .ok s ↔
      ∀ c ∈ s.data, c = 'c' ∨ c = 'd' ∨ c = 'n')
    ∧ validate_boot_order "cd" = .ok "cd"
    ∧ validate_boot_order "dn" = .ok "dn"
    ∧ validate_boot_order "cdn" = .ok "cdn"
    ∧ ∀ s : String, ∀ c ∈ s.data, ¬(c = 'c' ∨ c = 'd' ∨ c = 'n') →
        validate_boot_order s
          = .error "Boot order can only contain c, d, or n characters" := by
  have key : ∀ s : String,
      (s.data.all fun c => c == 'c' || c == 'd' || c == 'n') = true ↔
      ∀ c ∈ s.data, c = 'c' ∨ c = 'd' ∨ c = 'n' := by
    intro s
    simp [List.all_eq_true, or_assoc]
  refine ⟨?_, by rfl, by rfl, by rfl, ?_⟩
  · intro s
    unfold validate_boot_order
    split_ifs with h
    · exact iff_of_true rfl ((key s).mp h)
    · refine iff_of_false (by simp) fun hall => h ((key s).mpr hall)
  · intro s c hc hbad
    unfold validate_boot_order
    rw [if_neg]
    intro h
    exact hbad ((key s).mp h c hc)

/-- Witness for C8: the string "cdx" contains the character x, outside the
alphabet, and is rejected with the validation error. -/
theorem c8_witness :
    'x' ∈ "cdx".data
    ∧ ¬('x' = 'c' ∨ 'x' = 'd' ∨ 'x' = 'n')
    ∧ validate_boot_order "cdx"
      = .error "Boot order can only contain c, d, or n characters" :=
  ⟨by decide, by decide,
    c8_boot_order_validator.2.2.2.2 "cdx" 'x' (by decide) (by decide)⟩

/-- C9: if login fails after a successful connect, `__aenter__` attempts
disconnect before the login error propagates (the event trace ends with the
disconnect attempt and the result is the login error); and on exit of a
session whose entry succeeded, disconnect is always attempted and the final
outcome equals the body's outcome for every disconnect result — a disconnect
failure is swallowed, never raised. -/
theorem c9_session_teardown (w : SessionWorld) (body : Except String String)
    (hc : w.connectOk = true) :
    (w.loginOk = false →
        aenter w = ([.connect, .login, .disconnect], .error "login failed"))
    ∧ (w.loginOk = true →
        SessEvent.disconnect ∈ (with_session w body).1
        ∧ (with_session w body).2 = body) := by
  obtain ⟨co, lo, dis⟩ := w
  simp only at hc
  subst hc
  constructor
  · intro hl
    simp only at hl
    subst hl
    simp [aenter]
  · intro hl
    simp only at hl
    subst hl
    cases dis <;>
      simp [with_session, aenter, aexit, swallow, attempt_disconnect]

/-- Witness for C9: a failing login after a successful connect tears the
transport down before propagating, and a failing disconnect on exit does not
replace a successful body outcome. -/
theorem c9_witness :
    aenter ⟨true, false, true⟩
      = ([.connect, .login, .disconnect], .error "login failed")
    ∧ SessEvent.disconnect ∈ (with_session ⟨true, true, false⟩ (.ok "result")).1
    ∧ (with_session ⟨true, true, false⟩ (.ok "result")).2 = .ok "result" :=
  ⟨(c9_session_teardown ⟨true, false, true⟩ (.ok "result") rfl).1 rfl,
    ((c9_session_teardown ⟨true, true, false⟩ (.ok "result") rfl).2 rfl).1,
    ((c9_session_teardown ⟨true, true, false⟩ (.ok "result") rfl).2 rfl).2⟩

end XoTemplate
